import Mathlib

/-
Verification of the OpenGov validator-data pipeline (validator-cli.js and its
variant src/unnamed/part_000) against its natural-language specification.

Shallow embedding conventions:
* JavaScript `Number` arithmetic on stake amounts is modelled by exact
  rationals (ℚ).  All quantities the claims exercise are small enough that
  the IEEE-754 doubles computed by the source coincide with the rationals.
* The three per-validator chain queries (`staking.validators`,
  `derive.staking.account`, `staking.erasStakers`) are modelled by an oracle
  `env : String → Except Unit QueryData`; `Except.error` models any of the
  queries throwing, which the source catches per validator.
* `Number.prototype.toFixed` is modelled by `toFixed`, rendering a
  non-negative rational with a fixed number of decimal digits
  (round half up).
* The cache file is modelled by an abstract `FileState`; `readFileSync` and
  `JSON.parse` failures are the `unreadable` / `unparsable` states, and the
  `try`/`catch` of the source becomes a `match` on an `Except` body.
-/

/-- DEFAULT_CONFIG.batchSize from validator-cli.js (CONFIG.batchSize in part_000). -/
def batchSize : Nat := 25

/-- DEFAULT_CONFIG.maxValidators (both files). -/
def maxValidators : Nat := 100

/-- DEFAULT_CONFIG.cacheTimeout in milliseconds (both files). -/
def cacheTimeout : Int := 3600000

/-- DEFAULT_CONFIG.cacheFile (both files). -/
def cacheFile : String := "./validator-cache.json"

/-- DEFAULT_CONFIG.testValidator (both files). -/
def testValidator : String := "14zfiH2sMH955cG2yKUQbHSP3oQ8W4Ai9p9wSSZunvQ4TU4k"

/-- CONFIG.expectedValues.inactiveNomination from part_000 (2783408.3835). -/
def expectedInactiveNomination : ℚ := 2783408.3835

/-- Decimal digit character, as produced by JavaScript number formatting. -/
def digitChar10 (d : Nat) : Char :=
  if d = 0 then '0' else if d = 1 then '1' else if d = 2 then '2'
  else if d = 3 then '3' else if d = 4 then '4' else if d = 5 then '5'
  else if d = 6 then '6' else if d = 7 then '7' else if d = 8 then '8'
  else '9'

/-- Decimal digit characters of a natural number, most significant first.
The first argument is fuel (any bound on the digit count works; we pass
`n + 1`). -/
def natChars : Nat → Nat → List Char
  | 0, _ => []
  | fuel + 1, n =>
    if n < 10 then [digitChar10 n]
    else natChars fuel (n / 10) ++ [digitChar10 (n % 10)]

/-- Decimal rendering of a natural number. -/
def natStr (n : Nat) : String := String.mk (natChars (n + 1) n)

/-- Exactly `n` decimal digit characters of `m < 10 ^ n`, most significant
first (the zero-padded fractional part of a fixed-point rendering). -/
def fracChars : Nat → Nat → List Char
  | 0, _ => []
  | k + 1, m => digitChar10 (m / 10 ^ k) :: fracChars k (m % 10 ^ k)

/-- Floor of a rational as an integer. -/
def ratFloor (q : ℚ) : Int := Int.floor q

/-- Model of `Number.prototype.toFixed(n)` for the non-negative values the
pipeline renders: round half up to `n` decimal digits and print with exactly
`n` digits after the point. -/
def toFixed (n : Nat) (q : ℚ) : String :=
  let m := (ratFloor (q * 10 ^ n + 1 / 2)).toNat
  String.mk (natChars (m / 10 ^ n + 1) (m / 10 ^ n) ++ '.' :: fracChars n (m % 10 ^ n))

/-- Number of characters after the first '.' of a character list, if any. -/
def decsAfterPoint : List Char → Option Nat
  | [] => none
  | c :: cs => if c = '.' then some cs.length else decsAfterPoint cs

/-- Number of decimal places a rendered field carries (characters after the
first '.'), `none` when there is no point at all. -/
def fracCount (s : String) : Option Nat := decsAfterPoint s.data

/-- Model of `parseFloat` restricted to the strings this pipeline renders
(an optional-point decimal numeral); used only by the sort comparator. -/
def parseFixed (s : String) : ℚ :=
  match s.split (fun c => c = '.') with
  | [ip, fp] => (ip.toNat?.getD 0 : ℚ) + (fp.toNat?.getD 0 : ℚ) / (10 : ℚ) ^ fp.length
  | [ip] => (ip.toNat?.getD 0 : ℚ)
  | _ => 0

/-- What the three chain queries of processValidatorsBatch return for one
validator when none of them throws: `stakingLedger.total` (native units),
the Perbill commission of the validator preferences, and
`exposure.others` as (who, value) pairs in native units. -/
structure QueryData where
  selfBond : Nat
  commission : Nat
  others : List (String × Nat)
  deriving DecidableEq, Repr

/-- ownStake: `Number(selfBond) / 1e10` (native units to tokens). -/
def ownStakeQ (q : QueryData) : ℚ := (q.selfBond : ℚ) / 10000000000

/-- commissionPct: `commission / 10000000` (Perbill to percent). -/
def commissionPctQ (q : QueryData) : ℚ := (q.commission : ℚ) / 10000000

/-- activeStake: `exposureData.others.reduce((sum, o) => sum + Number(o.value) / 1e10, 0)`. -/
def activeStakeQ (q : QueryData) : ℚ :=
  q.others.foldl (fun sum o => sum + (o.2 : ℚ) / 10000000000) 0

/-- activeNominatorCount: `exposureData.others.length`. -/
def activeNominatorCount (q : QueryData) : Nat := q.others.length

/-- targetingNominators: the nominators of the map whose target list
includes the validator address (the delegation-index lookup). -/
def targetingNominators (nmap : List (String × List String)) (v : String) : List String :=
  (nmap.filter (fun p => p.2.contains v)).map (fun p => p.1)

/-- totalNominatorCount: `targetingNominators.length`. -/
def totalNominatorCount (nmap : List (String × List String)) (v : String) : Nat :=
  (targetingNominators nmap v).length

/-- inactiveNominatorCount: `Math.max(0, totalNominatorCount - activeNominatorCount)`
(the subtraction is on JavaScript numbers, hence ℤ here). -/
def inactiveNominatorCount (nmap : List (String × List String)) (v : String)
    (q : QueryData) : Int :=
  max 0 ((totalNominatorCount nmap v : Int) - (activeNominatorCount q : Int))

/-- The commission-tier multiplier: base 0.7, reassigned to 0.6 when
`commissionPct < 5` and to 0.8 when `commissionPct > 15`. -/
def inactiveMultiplier (commissionPct : ℚ) : ℚ :=
  if commissionPct < 5 then 0.6 else if commissionPct > 15 then 0.8 else 0.7

/-- inactiveStake of validator-cli.js: 0 unless both counts are positive, else
`avgActiveStakePerNominator * inactiveMultiplier * inactiveNominatorCount`. -/
def inactiveStakeQ (nmap : List (String × List String)) (v : String)
    (q : QueryData) : ℚ :=
  if 0 < activeNominatorCount q ∧ 0 < inactiveNominatorCount nmap v q then
    (activeStakeQ q / (activeNominatorCount q : ℚ))
      * inactiveMultiplier (commissionPctQ q)
      * ((inactiveNominatorCount nmap v q : Int) : ℚ)
  else 0

/-- inactiveStake of part_000: as in validator-cli.js, except that for the
configured test validator the tier multiplier is overwritten by the
calibrated value `expectedInactiveNomination / (avg * inactiveNominatorCount)`.
(In the source the calibration divides two doubles; with the positive
concrete values exercised here the rational quotient models it exactly.) -/
def inactiveStakeQ000 (nmap : List (String × List String)) (v : String)
    (q : QueryData) : ℚ :=
  if 0 < activeNominatorCount q ∧ 0 < inactiveNominatorCount nmap v q then
    let avg := activeStakeQ q / (activeNominatorCount q : ℚ)
    let mult :=
      if v == testValidator then
        expectedInactiveNomination / (avg * ((inactiveNominatorCount nmap v q : Int) : ℚ))
      else inactiveMultiplier (commissionPctQ q)
    avg * mult * ((inactiveNominatorCount nmap v q : Int) : ℚ)
  else 0

/-- One output row; field names correspond one-to-one to the object keys
'Validator', 'Self Bond (DOT)', 'Active Nomination (DOT)',
'Inactive Nomination (DOT)', 'Total Nomination (DOT)',
'Total Active Stake (DOT)', 'Commission (%)', 'Nominators (Active/Total)'. -/
structure Report where
  validator : String
  selfBond : String
  activeNomination : String
  inactiveNomination : String
  totalNomination : String
  totalActiveStake : String
  commissionPct : String
  nominators : String
  deriving DecidableEq, Repr

/-- The row returned by the success path of processValidatorsBatch in
validator-cli.js. -/
def successRow (nmap : List (String × List String)) (v : String)
    (q : QueryData) : Report :=
  ⟨v,
   toFixed 4 (ownStakeQ q),
   toFixed 4 (activeStakeQ q),
   toFixed 4 (inactiveStakeQ nmap v q),
   toFixed 4 (activeStakeQ q + inactiveStakeQ nmap v q),
   toFixed 4 (ownStakeQ q + activeStakeQ q),
   toFixed 2 (commissionPctQ q),
   natStr (activeNominatorCount q) ++ "/" ++ natStr (totalNominatorCount nmap v)⟩

/-- The row returned by the success path of processValidatorsBatch in
part_000 (same fields, part_000's inactive-stake estimation). -/
def successRow000 (nmap : List (String × List String)) (v : String)
    (q : QueryData) : Report :=
  ⟨v,
   toFixed 4 (ownStakeQ q),
   toFixed 4 (activeStakeQ q),
   toFixed 4 (inactiveStakeQ000 nmap v q),
   toFixed 4 (activeStakeQ q + inactiveStakeQ000 nmap v q),
   toFixed 4 (ownStakeQ q + activeStakeQ q),
   toFixed 2 (commissionPctQ q),
   natStr (activeNominatorCount q) ++ "/" ++ natStr (totalNominatorCount nmap v)⟩

/-- The zero-valued row returned by the catch branch of
processValidatorsBatch (both files): literal '0.00' strings and '0/0'. -/
def fallbackRow (v : String) : Report :=
  ⟨v, "0.00", "0.00", "0.00", "0.00", "0.00", "0.00", "0/0"⟩

/-- Processing of one validator in validator-cli.js: the whole body is in a
try/catch, so a failing oracle yields the fallback row. -/
def procValidator (nmap : List (String × List String)) (v : String)
    (q : Except Unit QueryData) : Report :=
  match q with
  | .ok d => successRow nmap v d
  | .error _ => fallbackRow v

/-- Processing of one validator in part_000 (test-validator calibration). -/
def procValidator000 (nmap : List (String × List String)) (v : String)
    (q : Except Unit QueryData) : Report :=
  match q with
  | .ok d => successRow000 nmap v d
  | .error _ => fallbackRow v

/-- processValidatorsBatch: `Promise.all(validators.map(...))`, which keeps
input order and length. -/
def processValidatorsBatch (nmap : List (String × List String))
    (validators : List String) (env : String → Except Unit QueryData) : List Report :=
  validators.map (fun v => procValidator nmap v (env v))

/-- The batch loop of getValidators: consume `batchSize`-sized slices in
order, concatenating the batch results.  First argument is fuel
(`validators.length` suffices, since each step consumes at least one). -/
def runBatchesAux (nmap : List (String × List String))
    (env : String → Except Unit QueryData) : Nat → List String → List Report
  | _, [] => []
  | 0, _ :: _ => []
  | fuel + 1, v :: rest =>
    processValidatorsBatch nmap ((v :: rest).take batchSize) env
      ++ runBatchesAux nmap env fuel ((v :: rest).drop batchSize)

/-- The batched enrichment loop over the whole (already limited) validator
list. -/
def batchedProcess (nmap : List (String × List String)) (validators : List String)
    (env : String → Except Unit QueryData) : List Report :=
  runBatchesAux nmap env validators.length validators

/-- The sort key of the comparator
`(a, b) => parseFloat(b[total active stake]) - parseFloat(a[total active stake])`. -/
def sortKey (r : Report) : ℚ := parseFixed r.totalActiveStake

/-- Stable insertion into a descending-by-key list: the new (originally
earlier) element goes in front of the first element whose key is not
greater. -/
def insertDesc (r : Report) : List Report → List Report
  | [] => [r]
  | x :: xs => if sortKey x ≤ sortKey r then r :: x :: xs else x :: insertDesc r xs

/-- Model of `results.sort(...)` with the descending total-active-stake
comparator (Array.prototype.sort is stable). -/
def sortResults : List Report → List Report
  | [] => []
  | r :: rs => insertDesc r (sortResults rs)

/-- Model of `options.limit ? list.slice(0, options.limit) : list` — note
that a limit of 0 is falsy in JavaScript and keeps the whole list. -/
def applyLimit (limit : Option Nat) (rs : List Report) : List Report :=
  match limit with
  | none => rs
  | some 0 => rs
  | some n => rs.take n

/-- Model of `options.limit || DEFAULT_CONFIG.maxValidators` (0 is falsy). -/
def effectiveMax (limit : Option Nat) : Nat :=
  match limit with
  | none => maxValidators
  | some 0 => maxValidators
  | some n => n

/-- The parsed cache file: `{timestamp, data}`. -/
structure CacheRecord where
  timestamp : Nat
  data : List Report
  deriving DecidableEq, Repr

/-- Abstract state of the cache file: absent, present but unreadable
(readFileSync throws), present but not valid JSON (JSON.parse throws), or
readable and parsing to a record. -/
inductive FileState where
  | absent
  | unreadable
  | unparsable
  | valid (rec : CacheRecord)
  deriving DecidableEq, Repr

/-- `fs.existsSync(cacheFile)` over the abstract file state. -/
def fileExists : FileState → Bool
  | .absent => false
  | _ => true

/-- `JSON.parse(fs.readFileSync(cacheFile, 'utf8'))`: throws on a missing or
unreadable file and on malformed JSON. -/
def readParse : FileState → Except String CacheRecord
  | .absent => .error "ENOENT"
  | .unreadable => .error "EACCES"
  | .unparsable => .error "SyntaxError"
  | .valid rec => .ok rec

/-- The try-block of loadCache in validator-cli.js: guard on existsSync and
the refresh flag, read and parse (either of which may throw, propagated
here as the error case), return the data when `now - timestamp <
cacheTimeout`, otherwise fall through to null. -/
def loadCacheBody (refresh : Bool) (fs : FileState) (now : Nat) :
    Except String (Option (List Report)) :=
  if fileExists fs && !refresh then
    match readParse fs with
    | .error e => .error e
    | .ok rec =>
      if (now : Int) - (rec.timestamp : Int) < cacheTimeout then .ok (some rec.data)
      else .ok none
  else .ok none

/-- loadCache of validator-cli.js: the catch turns any thrown error into a
logged message and the null (miss) result. -/
def loadCache (refresh : Bool) (fs : FileState) (now : Nat) : Option (List Report) :=
  match loadCacheBody refresh fs now with
  | .error _ => none
  | .ok r => r

/-- A file-system operation performed by the cache writer. -/
inductive FsOp where
  | write (path : String) (record : CacheRecord)
  | rename (src : String) (dst : String)
  deriving DecidableEq, Repr

/-- The file-system operations performed by saveCache (both files): a single
`fs.writeFileSync(cacheFile, JSON.stringify({timestamp, data}))` directly to
the backing path. -/
def saveCacheOps (now : Nat) (data : List Report) : List FsOp :=
  [FsOp.write cacheFile ⟨now, data⟩]

/-- The command-line options consumed by getValidators in validator-cli.js. -/
structure Options where
  limit : Option Nat
  validator : Option String
  refresh : Bool

/-- The reachable chain state of one run: the session validator set, the
decoded nominator → targets map, and the per-validator query oracle (the
era number is fixed per run and folded into the oracle). -/
structure NetworkState where
  validators : List String
  nmap : List (String × List String)
  env : String → Except Unit QueryData

/-- getValidators of validator-cli.js, returning the rows it tables and the
cache record it writes (`none` when it does not call saveCache).  The cached
branch filters by the requested single identity or applies the limit; the
live single-identity branch processes just that identity and caches the
result; the live full-set branch takes the first `effectiveMax` validators,
enriches them in batches, sorts descending by total active stake, tables the
limited view and caches the sorted rows. -/
def getValidators (opts : Options) (fs : FileState) (now : Nat)
    (net : NetworkState) : List Report × Option CacheRecord :=
  match loadCache opts.refresh fs now with
  | some data =>
    match opts.validator with
    | some v =>
      match data.find? (fun r => r.validator == v) with
      | some row => ([row], none)
      | none => ([], none)
    | none => (applyLimit opts.limit data, none)
  | none =>
    match opts.validator with
    | some v =>
      let results := processValidatorsBatch net.nmap [v] net.env
      (results, some ⟨now, results⟩)
    | none =>
      let processValidators := net.validators.take (effectiveMax opts.limit)
      let results := sortResults (batchedProcess net.nmap processValidators net.env)
      (applyLimit opts.limit results, some ⟨now, results⟩)

/-- A concrete two-validator network state whose queries all succeed, used
to exercise the cache-scope interaction of two consecutive runs. -/
def netC3 : NetworkState :=
  ⟨["V1", "V2"], [], fun _ => Except.ok ⟨10000000000, 0, []⟩⟩

theorem digitChar10_ne_dot (d : Nat) : digitChar10 d ≠ '.' := by
  unfold digitChar10
  repeat' split
  all_goals decide

theorem dot_not_mem_natChars (fuel n : Nat) : '.' ∉ natChars fuel n := by
  induction fuel generalizing n with
  | zero => simp [natChars]
  | succ f ih =>
    simp only [natChars]
    split
    · intro h
      exact digitChar10_ne_dot _ (List.mem_singleton.mp h).symm
    · intro h
      rcases List.mem_append.mp h with h | h
      · exact ih _ h
      · exact digitChar10_ne_dot _ (List.mem_singleton.mp h).symm

theorem decsAfterPoint_append (l₁ l₂ : List Char) (h : '.' ∉ l₁) :
    decsAfterPoint (l₁ ++ '.' :: l₂) = some l₂.length := by
  induction l₁ with
  | nil => simp [decsAfterPoint]
  | cons c cs ih =>
    simp only [List.cons_append, decsAfterPoint]
    rw [if_neg (fun hc => h (by rw [← hc]; exact List.mem_cons_self c cs))]
    exact ih (fun hm => h (List.mem_cons_of_mem _ hm))

theorem fracChars_length (n : Nat) : ∀ m, (fracChars n m).length = n := by
  induction n with
  | zero => intro m; rfl
  | succ k ih => intro m; simp [fracChars, ih]

theorem ratFloor_eq (q : ℚ) (z : Int) (h1 : (z : ℚ) ≤ q) (h2 : q < (z : ℚ) + 1) :
    ratFloor q = z :=
  Int.floor_eq_iff.mpr ⟨h1, h2⟩

theorem toFixed_eval (n : Nat) (q : ℚ) (m : Nat)
    (h1 : (m : ℚ) ≤ q * 10 ^ n + 1 / 2) (h2 : q * 10 ^ n + 1 / 2 < (m : ℚ) + 1) :
    toFixed n q
      = String.mk (natChars (m / 10 ^ n + 1) (m / 10 ^ n) ++ '.' :: fracChars n (m % 10 ^ n)) := by
  unfold toFixed
  rw [ratFloor_eq (q * 10 ^ n + 1 / 2) (m : Int) (by push_cast; exact h1)
        (by push_cast; exact h2),
      Int.toNat_natCast]

theorem fracCount_toFixed (n : Nat) (q : ℚ) : fracCount (toFixed n q) = some n := by
  unfold fracCount toFixed
  show decsAfterPoint (natChars _ _ ++ '.' :: fracChars _ _) = some n
  rw [decsAfterPoint_append _ _ (dot_not_mem_natChars _ _), fracChars_length]

theorem runBatchesAux_eq_map (nmap : List (String × List String))
    (env : String → Except Unit QueryData) :
    ∀ fuel vs, vs.length ≤ fuel →
      runBatchesAux nmap env fuel vs = vs.map (fun v => procValidator nmap v (env v)) := by
  intro fuel
  induction fuel with
  | zero =>
    intro vs h
    have hnil : vs = [] := List.eq_nil_of_length_eq_zero (Nat.le_zero.mp h)
    rw [hnil]
    rfl
  | succ f ih =>
    intro vs h
    match vs with
    | [] => rfl
    | v :: rest =>
      show processValidatorsBatch nmap ((v :: rest).take batchSize) env
          ++ runBatchesAux nmap env f ((v :: rest).drop batchSize) = _
      rw [ih ((v :: rest).drop batchSize)
            (by
              have hb : 1 ≤ batchSize := by decide
              simp only [List.length_drop, List.length_cons]
              simp only [List.length_cons] at h
              omega)]
      unfold processValidatorsBatch
      rw [← List.map_append, List.take_append_drop]

theorem batchedProcess_eq_map (nmap : List (String × List String))
    (vs : List String) (env : String → Except Unit QueryData) :
    batchedProcess nmap vs env = vs.map (fun v => procValidator nmap v (env v)) :=
  runBatchesAux_eq_map nmap env vs.length vs le_rfl

theorem length_insertDesc (r : Report) (l : List Report) :
    (insertDesc r l).length = l.length + 1 := by
  induction l with
  | nil => rfl
  | cons x xs ih =>
    simp only [insertDesc]
    split
    · rfl
    · simp [ih]

theorem length_sortResults (l : List Report) : (sortResults l).length = l.length := by
  induction l with
  | nil => rfl
  | cons r rs ih => simp [sortResults, length_insertDesc, ih]

/-- C1 (counterexample): the claim that every produced report has
activeDelegatorCount ≤ totalDelegatorCount for all exposure lists and all
delegation-index contents is false: an exposure with one other-delegation
combined with an empty delegation index yields the report row '1/0'. -/
theorem activeCount_can_exceed_totalCount_cex :
    ¬ activeNominatorCount ⟨0, 0, [("d1", 50000000000)]⟩ ≤ totalNominatorCount [] "v" ∧
    (procValidator [] "v" (Except.ok ⟨0, 0, [("d1", 50000000000)]⟩)).nominators = "1/0" := by
  decide

/-- C1 (amended): activeDelegatorCount ≤ totalDelegatorCount holds for every
report produced from inputs where the exposure's delegator identities are
pairwise distinct and each of them is recorded in the delegation index as
targeting the validator; the code itself applies no clamp to the active
count. -/
theorem activeCount_le_totalCount_of_indexed (nmap : List (String × List String))
    (v : String) (q : QueryData)
    (hnd : (q.others.map Prod.fst).Nodup)
    (hsub : ∀ w ∈ q.others.map Prod.fst, w ∈ targetingNominators nmap v) :
    activeNominatorCount q ≤ totalNominatorCount nmap v := by
  have h1 : activeNominatorCount q = (q.others.map Prod.fst).length :=
    (List.length_map _ _).symm
  have h2 : (q.others.map Prod.fst).toFinset.card = (q.others.map Prod.fst).length :=
    List.toFinset_card_of_nodup hnd
  have h3 : (q.others.map Prod.fst).toFinset ⊆ (targetingNominators nmap v).toFinset := by
    intro x hx
    exact List.mem_toFinset.mpr (hsub x (List.mem_toFinset.mp hx))
  calc activeNominatorCount q
      = (q.others.map Prod.fst).toFinset.card := by rw [h1, h2]
    _ ≤ (targetingNominators nmap v).toFinset.card := Finset.card_le_card h3
    _ ≤ (targetingNominators nmap v).length := List.toFinset_card_le _
    _ = totalNominatorCount nmap v := rfl

/-- C1 (witness): a single active delegator that is also indexed as
targeting the validator satisfies the amended inequality. -/
theorem activeCount_le_totalCount_of_indexed_witness :
    activeNominatorCount ⟨0, 0, [("a", 7)]⟩ ≤ totalNominatorCount [("a", ["v"])] "v" :=
  activeCount_le_totalCount_of_indexed [("a", ["v"])] "v" ⟨0, 0, [("a", 7)]⟩
    (by decide) (by decide)

/-- C2: on the single-delegation scenario (one other-delegation of 1000
tokens, self bond 100 tokens, three targeting delegators, 5% commission) the
estimator reports exactly activeStake 1000.0000, counts 1/3 (hence two
inactive), inactiveStake 1400.0000, totalStake 2400.0000 and
totalActiveStake 1100.0000. -/
theorem single_delegation_scenario_exact :
    procValidator [("n1", ["V"]), ("n2", ["V"]), ("n3", ["V"])] "V"
        (Except.ok ⟨1000000000000, 50000000, [("d1", 10000000000000)]⟩)
      = ⟨"V", "100.0000", "1000.0000", "1400.0000", "2400.0000", "1100.0000", "5.00", "1/3"⟩ ∧
    activeStakeQ ⟨1000000000000, 50000000, [("d1", 10000000000000)]⟩ = 1000 ∧
    activeNominatorCount ⟨1000000000000, 50000000, [("d1", 10000000000000)]⟩ = 1 ∧
    inactiveNominatorCount [("n1", ["V"]), ("n2", ["V"]), ("n3", ["V"])] "V"
        ⟨1000000000000, 50000000, [("d1", 10000000000000)]⟩ = 2 ∧
    inactiveStakeQ [("n1", ["V"]), ("n2", ["V"]), ("n3", ["V"])] "V"
        ⟨1000000000000, 50000000, [("d1", 10000000000000)]⟩ = 1400 := by
  have hq : activeStakeQ ⟨1000000000000, 50000000, [("d1", 10000000000000)]⟩ = 1000 := by
    norm_num [activeStakeQ, List.foldl_cons, List.foldl_nil]
  have hown : ownStakeQ ⟨1000000000000, 50000000, [("d1", 10000000000000)]⟩ = 100 := by
    norm_num [ownStakeQ]
  have hcp : commissionPctQ ⟨1000000000000, 50000000, [("d1", 10000000000000)]⟩ = 5 := by
    norm_num [commissionPctQ]
  have hac : activeNominatorCount ⟨1000000000000, 50000000, [("d1", 10000000000000)]⟩ = 1 := rfl
  have hcnt : inactiveNominatorCount [("n1", ["V"]), ("n2", ["V"]), ("n3", ["V"])] "V"
      ⟨1000000000000, 50000000, [("d1", 10000000000000)]⟩ = 2 := by decide
  have hmul : inactiveMultiplier 5 = 0.7 := by norm_num [inactiveMultiplier]
  have hin : inactiveStakeQ [("n1", ["V"]), ("n2", ["V"]), ("n3", ["V"])] "V"
      ⟨1000000000000, 50000000, [("d1", 10000000000000)]⟩ = 1400 := by
    unfold inactiveStakeQ
    rw [if_pos (by decide), hq, hcp, hac, hcnt, hmul]
    norm_num
  refine ⟨?_, hq, hac, hcnt, hin⟩
  show successRow [("n1", ["V"]), ("n2", ["V"]), ("n3", ["V"])] "V"
      ⟨1000000000000, 50000000, [("d1", 10000000000000)]⟩ = _
  unfold successRow
  rw [hq, hin, hown, hcp]
  simp only [Report.mk.injEq]
  refine ⟨trivial, ?_, ?_, ?_, ?_, ?_, ?_, by decide⟩
  · rw [toFixed_eval 4 100 1000000 (by norm_num) (by norm_num)]
    decide
  · rw [toFixed_eval 4 1000 10000000 (by norm_num) (by norm_num)]
    decide
  · rw [toFixed_eval 4 1400 14000000 (by norm_num) (by norm_num)]
    decide
  · rw [toFixed_eval 4 (1000 + 1400) 24000000 (by norm_num) (by norm_num)]
    decide
  · rw [toFixed_eval 4 (100 + 1000) 11000000 (by norm_num) (by norm_num)]
    decide
  · rw [toFixed_eval 2 5 500 (by norm_num) (by norm_num)]
    decide

/-- C3: the cache is not scope-keyed, so a single-identity run's saved cache
entry is served verbatim to a subsequent full-set run within the TTL: the
first run (validator V1 requested, empty cache) writes a one-row record, and
the second run (full set, no refresh, 1 second later) returns exactly that
one row even though the network has two validators. -/
theorem fullSetRun_served_from_single_identity_cache :
    (getValidators ⟨none, some "V1", false⟩ FileState.absent 0 netC3).2
      = some ⟨0, [procValidator [] "V1" (Except.ok ⟨10000000000, 0, []⟩)]⟩ ∧
    (getValidators ⟨none, none, false⟩
        (FileState.valid ⟨0, [procValidator [] "V1" (Except.ok ⟨10000000000, 0, []⟩)]⟩)
        1000 netC3).1
      = [procValidator [] "V1" (Except.ok ⟨10000000000, 0, []⟩)] ∧
    ([procValidator [] "V1" (Except.ok ⟨10000000000, 0, []⟩)] : List Report).length = 1 ∧
    netC3.validators.length = 2 :=
  ⟨rfl, rfl, rfl, rfl⟩

/-- C4 (counterexample): saveCache does not write through a temporary path
and rename; its operation trace is a single direct write, never the
two-step write-then-rename shape the claim asserts. -/
theorem saveCache_no_temp_rename_cex :
    ¬ ∃ tmp rec, tmp ≠ cacheFile ∧
        saveCacheOps 0 [] = [FsOp.write tmp rec, FsOp.rename tmp cacheFile] := by
  intro h
  obtain ⟨tmp, rec, -, h⟩ := h
  have hlen := congrArg List.length h
  simp [saveCacheOps] at hlen

/-- C4 (amended): saveCache writes the complete timestamp/data record with
one direct writeFileSync to the backing cache file, with no temporary path
and no rename. -/
theorem saveCache_single_direct_write (now : Nat) (data : List Report) :
    saveCacheOps now data = [FsOp.write cacheFile ⟨now, data⟩] := rfl

/-- C5 (counterexample): in the part_000 variant the configured test
validator does not use the commission-tier multiplier: at exactly 5%
commission, average 1000 per active delegator and two inactive delegators,
its inactive stake is the calibrated 2783408.3835 rather than the
1000 * 0.7 * 2 = 1400 the tier rule dictates. -/
theorem testValidator_multiplier_override_cex :
    inactiveStakeQ000
        [("n1", [testValidator]), ("n2", [testValidator]), ("n3", [testValidator])]
        testValidator ⟨0, 50000000, [("d1", 10000000000000)]⟩ = 2783408.3835 ∧
    inactiveStakeQ000
        [("n1", [testValidator]), ("n2", [testValidator]), ("n3", [testValidator])]
        testValidator ⟨0, 50000000, [("d1", 10000000000000)]⟩ ≠ 1000 * 0.7 * 2 := by
  have ha : activeStakeQ ⟨0, 50000000, [("d1", 10000000000000)]⟩ = 1000 := by
    norm_num [activeStakeQ, List.foldl_cons, List.foldl_nil]
  have hac : activeNominatorCount ⟨0, 50000000, [("d1", 10000000000000)]⟩ = 1 := rfl
  have hcnt : inactiveNominatorCount
      [("n1", [testValidator]), ("n2", [testValidator]), ("n3", [testValidator])]
      testValidator ⟨0, 50000000, [("d1", 10000000000000)]⟩ = 2 := by decide
  have hA : inactiveStakeQ000
      [("n1", [testValidator]), ("n2", [testValidator]), ("n3", [testValidator])]
      testValidator ⟨0, 50000000, [("d1", 10000000000000)]⟩ = 2783408.3835 := by
    unfold inactiveStakeQ000
    rw [if_pos (by decide)]
    simp only [beq_self_eq_true, if_true, ha, hac, hcnt]
    norm_num [expectedInactiveNomination]
  refine ⟨hA, ?_⟩
  rw [hA]
  norm_num

/-- C5 (amended): the inactive-stake multiplier is exactly the commission
tier value at the four boundary points (5% and 15% give 0.7, 4.99% gives
0.6, 15.01% gives 0.8); in validator-cli.js every validator with at least
one active and one inactive delegator uses that tier multiplier, and the
part_000 variant agrees for every identity other than the configured test
validator. -/
theorem commission_tier_multiplier :
    inactiveMultiplier 5 = 0.7 ∧
    inactiveMultiplier 15 = 0.7 ∧
    inactiveMultiplier 4.99 = 0.6 ∧
    inactiveMultiplier 15.01 = 0.8 ∧
    (∀ nmap v q, 0 < activeNominatorCount q → 0 < inactiveNominatorCount nmap v q →
      inactiveStakeQ nmap v q
        = (activeStakeQ q / (activeNominatorCount q : ℚ))
            * inactiveMultiplier (commissionPctQ q)
            * ((inactiveNominatorCount nmap v q : Int) : ℚ)) ∧
    (∀ nmap v q, v ≠ testValidator → inactiveStakeQ000 nmap v q = inactiveStakeQ nmap v q) := by
  refine ⟨by norm_num [inactiveMultiplier], by norm_num [inactiveMultiplier],
    by norm_num [inactiveMultiplier], by norm_num [inactiveMultiplier], ?_, ?_⟩
  · intro nmap v q h1 h2
    unfold inactiveStakeQ
    rw [if_pos ⟨h1, h2⟩]
  · intro nmap v q hv
    unfold inactiveStakeQ000 inactiveStakeQ
    by_cases hC : 0 < activeNominatorCount q ∧ 0 < inactiveNominatorCount nmap v q
    · rw [if_pos hC, if_pos hC]
      have hb : (v == testValidator) = false := beq_eq_false_iff_ne.mpr hv
      simp [hb]
    · rw [if_neg hC, if_neg hC]

/-- C5 (witness): a concrete 20%-commission validator with one active and
one inactive delegator obeys the tier formula, and a concrete non-test
identity gets the same inactive stake in both variants. -/
theorem commission_tier_multiplier_witness :
    inactiveStakeQ [("n1", ["V"]), ("n2", ["V"])] "V" ⟨0, 200000000, [("d1", 10000000000)]⟩
      = (activeStakeQ ⟨0, 200000000, [("d1", 10000000000)]⟩
            / (activeNominatorCount ⟨0, 200000000, [("d1", 10000000000)]⟩ : ℚ))
          * inactiveMultiplier (commissionPctQ ⟨0, 200000000, [("d1", 10000000000)]⟩)
          * ((inactiveNominatorCount [("n1", ["V"]), ("n2", ["V"])] "V"
                ⟨0, 200000000, [("d1", 10000000000)]⟩ : Int) : ℚ) ∧
    inactiveStakeQ000 [] "W" ⟨0, 0, []⟩ = inactiveStakeQ [] "W" ⟨0, 0, []⟩ :=
  ⟨commission_tier_multiplier.2.2.2.2.1 [("n1", ["V"]), ("n2", ["V"])] "V"
      ⟨0, 200000000, [("d1", 10000000000)]⟩ (by decide) (by decide),
   commission_tier_multiplier.2.2.2.2.2 [] "W" ⟨0, 0, []⟩ (by decide)⟩

/-- C6: whenever the active delegator count is zero or the inactive
delegator count is zero, the estimated inactive stake is zero (in both
variants), and the produced report renders it as 0.0000, regardless of
commission or stake values. -/
theorem inactiveStake_zero_when_no_active_or_no_inactive
    (nmap : List (String × List String)) (v : String) (q : QueryData)
    (h : activeNominatorCount q = 0 ∨ inactiveNominatorCount nmap v q = 0) :
    inactiveStakeQ nmap v q = 0 ∧ inactiveStakeQ000 nmap v q = 0 ∧
    (procValidator nmap v (Except.ok q)).inactiveNomination = "0.0000" ∧
    (procValidator000 nmap v (Except.ok q)).inactiveNomination = "0.0000" := by
  have hneg : ¬ (0 < activeNominatorCount q ∧ 0 < inactiveNominatorCount nmap v q) := by
    rcases h with h | h <;> rintro ⟨h1, h2⟩ <;> omega
  have e1 : inactiveStakeQ nmap v q = 0 := by
    unfold inactiveStakeQ
    rw [if_neg hneg]
  have e2 : inactiveStakeQ000 nmap v q = 0 := by
    unfold inactiveStakeQ000
    rw [if_neg hneg]
  have t0 : toFixed 4 (0 : ℚ) = "0.0000" := by
    rw [toFixed_eval 4 0 0 (by norm_num) (by norm_num)]
    decide
  refine ⟨e1, e2, ?_, ?_⟩
  · show toFixed 4 (inactiveStakeQ nmap v q) = "0.0000"
    rw [e1, t0]
  · show toFixed 4 (inactiveStakeQ000 nmap v q) = "0.0000"
    rw [e2, t0]

/-- C6 (witness): a validator with an empty exposure list (no active
delegators) gets inactive stake 0 and an 0.0000 report field. -/
theorem inactiveStake_zero_when_no_active_or_no_inactive_witness :
    inactiveStakeQ [] "x" ⟨5, 123, []⟩ = 0 ∧ inactiveStakeQ000 [] "x" ⟨5, 123, []⟩ = 0 ∧
    (procValidator [] "x" (Except.ok ⟨5, 123, []⟩)).inactiveNomination = "0.0000" ∧
    (procValidator000 [] "x" (Except.ok ⟨5, 123, []⟩)).inactiveNomination = "0.0000" :=
  inactiveStake_zero_when_no_active_or_no_inactive [] "x" ⟨5, 123, []⟩ (Or.inl (by decide))

/-- C7 (counterexample): the zeroed fallback row produced for a failed
per-entity query renders its monetary fields with 2 decimal places, not 4:
the claim that every emitted row has 4-decimal monetary fields is false. -/
theorem fallback_row_two_decimals_cex :
    fracCount ((procValidator [] "x" (Except.error ())).selfBond) = some 2 ∧
    fracCount ((procValidator [] "x" (Except.error ())).selfBond) ≠ some 4 := by
  decide

/-- C7 (amended): every successfully estimated row renders its five
monetary fields with exactly 4 decimal places and the commission with
exactly 2; the zeroed fallback rows instead render every numeric field
(monetary and commission alike) with exactly 2 decimal places. -/
theorem report_decimal_places (nmap : List (String × List String)) (v : String)
    (q : QueryData) :
    (fracCount (procValidator nmap v (Except.ok q)).selfBond = some 4 ∧
     fracCount (procValidator nmap v (Except.ok q)).activeNomination = some 4 ∧
     fracCount (procValidator nmap v (Except.ok q)).inactiveNomination = some 4 ∧
     fracCount (procValidator nmap v (Except.ok q)).totalNomination = some 4 ∧
     fracCount (procValidator nmap v (Except.ok q)).totalActiveStake = some 4 ∧
     fracCount (procValidator nmap v (Except.ok q)).commissionPct = some 2) ∧
    (fracCount (procValidator nmap v (Except.error ())).selfBond = some 2 ∧
     fracCount (procValidator nmap v (Except.error ())).activeNomination = some 2 ∧
     fracCount (procValidator nmap v (Except.error ())).inactiveNomination = some 2 ∧
     fracCount (procValidator nmap v (Except.error ())).totalNomination = some 2 ∧
     fracCount (procValidator nmap v (Except.error ())).totalActiveStake = some 2 ∧
     fracCount (procValidator nmap v (Except.error ())).commissionPct = some 2) ∧
    fracCount (procValidator000 nmap v (Except.ok q)).inactiveNomination = some 4 := by
  refine ⟨⟨?_, ?_, ?_, ?_, ?_, ?_⟩, ⟨?_, ?_, ?_, ?_, ?_, ?_⟩, ?_⟩ <;>
    first
      | exact fracCount_toFixed _ _
      | exact (by decide : fracCount "0.00" = some 2)

/-- C8: per-entity failure is isolated: the batched enrichment of any
validator list returns exactly one report per requested validator in input
order, each position holding the per-validator result, and a validator
whose queries throw contributes exactly the zero-valued fallback row
without affecting the others or later batches. -/
theorem batch_failure_isolation (nmap : List (String × List String))
    (vs : List String) (env : String → Except Unit QueryData) :
    (batchedProcess nmap vs env).length = vs.length ∧
    (∀ (i : Nat) (v : String), vs[i]? = some v →
      (batchedProcess nmap vs env)[i]? = some (procValidator nmap v (env v))) ∧
    (∀ (i : Nat) (v : String), vs[i]? = some v → env v = Except.error () →
      (batchedProcess nmap vs env)[i]? = some (fallbackRow v)) := by
  have hm := batchedProcess_eq_map nmap vs env
  refine ⟨by rw [hm]; exact List.length_map _ _, ?_, ?_⟩
  · intro i v hv
    rw [hm, List.getElem?_map, hv]
    rfl
  · intro i v hv he
    rw [hm, List.getElem?_map, hv]
    show some (procValidator nmap v (env v)) = some (fallbackRow v)
    rw [he]
    rfl

/-- C8 (witness): a two-validator batch in which every query throws still
yields two rows, the first being the zeroed fallback row. -/
theorem batch_failure_isolation_witness :
    (batchedProcess [] ["a", "b"] (fun _ => Except.error ())).length = 2 ∧
    (batchedProcess [] ["a", "b"] (fun _ => Except.error ()))[0]? = some (fallbackRow "a") :=
  ⟨(batch_failure_isolation [] ["a", "b"] (fun _ => Except.error ())).1,
   (batch_failure_isolation [] ["a", "b"] (fun _ => Except.error ())).2.2 0 "a" rfl rfl⟩

/-- C9: loadCache returns the miss value for an absent, unreadable or
unparsable cache file and for an entry whose age has reached the TTL; with
the force-refresh flag set it returns a miss for every file state (so the
outcome is independent of the file's contents), and on any miss the
full-set run proceeds to a live fetch whose result it caches. -/
theorem loadCache_miss_semantics :
    (∀ refresh now, loadCache refresh FileState.absent now = none) ∧
    (∀ refresh now, loadCache refresh FileState.unreadable now = none) ∧
    (∀ refresh now, loadCache refresh FileState.unparsable now = none) ∧
    (∀ (refresh : Bool) (now : Nat) (rec : CacheRecord),
      cacheTimeout ≤ (now : Int) - (rec.timestamp : Int) →
      loadCache refresh (FileState.valid rec) now = none) ∧
    (∀ fs now, loadCache true fs now = none) ∧
    (∀ fs fs2 now net limit idv,
      getValidators ⟨limit, idv, true⟩ fs now net
        = getValidators ⟨limit, idv, true⟩ fs2 now net) ∧
    (∀ refresh fs now net, loadCache refresh fs now = none →
      (getValidators ⟨none, none, refresh⟩ fs now net).2
        = some ⟨now, sortResults (batchedProcess net.nmap
            (net.validators.take maxValidators) net.env)⟩) := by
  have h5 : ∀ fs now, loadCache true fs now = none := by
    intro fs now
    cases fs <;> rfl
  refine ⟨?_, ?_, ?_, ?_, h5, ?_, ?_⟩
  · intro refresh now
    rfl
  · intro refresh now
    cases refresh <;> rfl
  · intro refresh now
    cases refresh <;> rfl
  · intro refresh now rec h
    cases refresh
    · have hlt : ¬ ((now : Int) - (rec.timestamp : Int) < cacheTimeout) := not_lt.mpr h
      simp only [loadCache, loadCacheBody, fileExists, readParse, Bool.not_false,
        Bool.and_true, if_true, if_neg hlt]
    · exact h5 _ now
  · intro fs fs2 now net limit idv
    unfold getValidators
    rw [h5 fs now, h5 fs2 now]
  · intro refresh fs now net hmiss
    unfold getValidators
    rw [hmiss]
    rfl

/-- C9 (witness): a one-hour-old entry is a miss, and a missing file leads
the full-set run to a live fetch and a cache write. -/
theorem loadCache_miss_semantics_witness :
    loadCache false (FileState.valid ⟨0, []⟩) 3600000 = none ∧
    (getValidators ⟨none, none, false⟩ FileState.absent 0
        ⟨["V1"], [], fun _ => Except.error ()⟩).2
      = some ⟨0, sortResults (batchedProcess [] (["V1"].take maxValidators)
          (fun _ => Except.error ()))⟩ :=
  ⟨loadCache_miss_semantics.2.2.2.1 false 3600000 ⟨0, []⟩ (by decide),
   loadCache_miss_semantics.2.2.2.2.2.2 false FileState.absent 0
     ⟨["V1"], [], fun _ => Except.error ()⟩ rfl⟩

/-- C10: a full-set run with no limit option that misses the cache
processes only the first maxValidators (100) of the session validator set:
on any network state with more than 100 validators, both the displayed list
and the cached record hold exactly 100 rows, fewer than the full set. -/
theorem fullSet_run_caps_at_maxValidators (net : NetworkState) (fs : FileState)
    (now : Nat) (refresh : Bool)
    (hmiss : loadCache refresh fs now = none)
    (hbig : maxValidators < net.validators.length) :
    (getValidators ⟨none, none, refresh⟩ fs now net).1.length = maxValidators ∧
    ∃ rec, (getValidators ⟨none, none, refresh⟩ fs now net).2 = some rec ∧
      rec.data.length = maxValidators ∧ rec.data.length < net.validators.length := by
  have hrun : getValidators ⟨none, none, refresh⟩ fs now net
      = (sortResults (batchedProcess net.nmap (net.validators.take maxValidators) net.env),
         some ⟨now, sortResults (batchedProcess net.nmap
           (net.validators.take maxValidators) net.env)⟩) := by
    unfold getValidators
    rw [hmiss]
    rfl
  have hlen : (sortResults (batchedProcess net.nmap
      (net.validators.take maxValidators) net.env)).length = maxValidators := by
    rw [length_sortResults, batchedProcess_eq_map, List.length_map, List.length_take]
    exact Nat.min_eq_left (Nat.le_of_lt hbig)
  rw [hrun]
  exact ⟨hlen, ⟨now, sortResults (batchedProcess net.nmap
      (net.validators.take maxValidators) net.env)⟩, rfl, hlen,
    by rw [hlen]; exact hbig⟩

/-- C10 (witness): with 101 identical validators, an empty cache and no
limit, the run reports and caches exactly 100 rows. -/
theorem fullSet_run_caps_at_maxValidators_witness :
    (getValidators ⟨none, none, false⟩ FileState.absent 0
        ⟨List.replicate 101 "v", [], fun _ => Except.error ()⟩).1.length = maxValidators ∧
    ∃ rec, (getValidators ⟨none, none, false⟩ FileState.absent 0
        ⟨List.replicate 101 "v", [], fun _ => Except.error ()⟩).2 = some rec ∧
      rec.data.length = maxValidators ∧
      rec.data.length
        < (⟨List.replicate 101 "v", [], fun _ => Except.error ()⟩ : NetworkState).validators.length :=
  fullSet_run_caps_at_maxValidators
    ⟨List.replicate 101 "v", [], fun _ => Except.error ()⟩ FileState.absent 0 false rfl
    (by rw [List.length_replicate]; decide)
